import Mathlib

/-!
Shallow embedding of the FlagShip feature-flag service
(`app/models.py`, `app/schemas.py`, `app/crud.py`, `app/auth.py`,
`app/main.py`).

The relational store is modelled as a list of flag records in insertion
order (SQLAlchemy `query(...).first()` returns the first row matching the
filter, `offset/limit` slice the ordered result, `db.add` appends a row,
`db.delete` removes the one found row).  Timestamps are naturals: the
`DB` state carries the value `func.now()` would produce, so `create`
stamps the new row with it and a committing `update` refreshes the row's
`updated_at` to it (`onupdate=func.now()` in `models.py`).  Identifiers
(`uuid4` primary keys) are modelled by a fresh-counter in the state.
-/

set_option autoImplicit false

namespace FlagShip

/-- `FeatureFlag` row from `app/models.py`: uuid id, name (≤100 chars),
environment (≤50 chars), enabled (default false), rollout (default 100),
updated_at maintained by the database. -/
structure FeatureFlag where
  id : Nat
  name : String
  environment : String
  enabled : Bool
  rollout : Int
  updated_at : Nat
  deriving Repr, DecidableEq

/-- Database session state: the `feature_flags` table in insertion order,
the next fresh identifier, and the current clock (`func.now()`). -/
structure DB where
  flags : List FeatureFlag
  nextId : Nat
  now : Nat
  deriving Repr, DecidableEq

/-- The row-level predicate of `crud.get_flag`'s filter:
`FeatureFlag.name == name, FeatureFlag.environment == environment`. -/
def flagMatches (name environment : String) (f : FeatureFlag) : Bool :=
  f.name == name && f.environment == environment

/-- `crud.get_flag`: first row matching name and environment, or absent. -/
def get_flag (db : DB) (name environment : String) : Option FeatureFlag :=
  (db.flags.filter (flagMatches name environment)).head?

/-- The query built by `crud.list_flags`/`crud.count_flags` before
offset/limit: `if environment:` adds the filter, so both `None` and the
empty string leave the query unfiltered. -/
def filteredFlags (db : DB) (environment : Option String) : List FeatureFlag :=
  match environment with
  | some e => if e ≠ "" then db.flags.filter (fun f => f.environment == e) else db.flags
  | none => db.flags

/-- `crud.list_flags`: optional environment filter, then
`.offset(skip).limit(limit).all()`. -/
def list_flags (db : DB) (environment : Option String) (skip limit : Nat) :
    List FeatureFlag :=
  ((filteredFlags db environment).drop skip).take limit

/-- `crud.count_flags`: cardinality of the same filtered query. -/
def count_flags (db : DB) (environment : Option String) : Nat :=
  (filteredFlags db environment).length

/-- Python's `str.lower()` as used by `validate_environment`: lowercase
every character. -/
def strLower (s : String) : String :=
  ⟨s.data.map Char.toLower⟩

/-- The allowed environments of `schemas.FeatureFlagBase.validate_environment`. -/
def allowedEnvironments : List String :=
  ["dev", "staging", "prod", "development", "production"]

/-- Validated create payload (`schemas.FeatureFlagCreate`), after pydantic
field constraints and the environment validator have run. -/
structure FeatureFlagCreate where
  name : String
  environment : String
  enabled : Bool
  rollout : Int
  deriving Repr, DecidableEq

/-- Validated update payload (`schemas.FeatureFlagUpdate`): both fields
optional. -/
structure FeatureFlagUpdate where
  enabled : Option Bool
  rollout : Option Int
  deriving Repr, DecidableEq

/-- Validation outcomes of the pydantic schemas. -/
inductive ValidationError where
  | nameLength
  | environmentLength
  | environmentNotAllowed
  | rolloutRange
  deriving Repr, DecidableEq

/-- `schemas.FeatureFlagCreate` validation: `name` 1–100 chars,
`environment` 1–50 chars and case-insensitively in the allowed set
(normalized to lowercase by the validator), `enabled` defaulting to
false, `rollout` defaulting to 100 and bounded to [0, 100]. -/
def mkFeatureFlagCreate (name environment : String) (enabled : Option Bool)
    (rollout : Option Int) : Except ValidationError FeatureFlagCreate :=
  if name.length < 1 || 100 < name.length then .error .nameLength
  else if environment.length < 1 || 50 < environment.length then
    .error .environmentLength
  else if !(allowedEnvironments.contains (strLower environment)) then
    .error .environmentNotAllowed
  else
    let r := rollout.getD 100
    if r < 0 || 100 < r then .error .rolloutRange
    else .ok { name := name, environment := strLower environment,
               enabled := enabled.getD false, rollout := r }

/-- `schemas.FeatureFlagUpdate` validation: `rollout`, when supplied,
must lie in [0, 100] (both the `Field(ge, le)` bounds and the
`validate_rollout` validator check this). -/
def mkFeatureFlagUpdate (enabled : Option Bool) (rollout : Option Int) :
    Except ValidationError FeatureFlagUpdate :=
  match rollout with
  | some r =>
    if r < 0 || 100 < r then .error .rolloutRange
    else .ok { enabled := enabled, rollout := some r }
  | none => .ok { enabled := enabled, rollout := none }

/-- Store-level failure raised by `crud.create_flag` on a duplicate pair
(`FlagAlreadyExistsError`). -/
inductive CrudError where
  | alreadyExists (name environment : String)
  deriving Repr, DecidableEq

/-- `crud.create_flag`: existence check on the pair, then insert a fresh
row with `updated_at` set by the database clock. -/
def create_flag (db : DB) (fd : FeatureFlagCreate) :
    Except CrudError (FeatureFlag × DB) :=
  match get_flag db fd.name fd.environment with
  | some _ => .error (.alreadyExists fd.name fd.environment)
  | none =>
    let flag : FeatureFlag :=
      { id := db.nextId, name := fd.name, environment := fd.environment,
        enabled := fd.enabled, rollout := fd.rollout, updated_at := db.now }
    .ok (flag, { db with flags := db.flags ++ [flag], nextId := db.nextId + 1 })

/-- Replace the first row matching the pair (the row `update_flag` found
and mutated before committing). -/
def replaceFlag (flags : List FeatureFlag) (name environment : String)
    (newFlag : FeatureFlag) : List FeatureFlag :=
  match flags with
  | [] => []
  | f :: rest =>
    if flagMatches name environment f then newFlag :: rest
    else f :: replaceFlag rest name environment newFlag

/-- Remove the first row matching the pair (the row `delete_flag` found). -/
def removeFlag (flags : List FeatureFlag) (name environment : String) :
    List FeatureFlag :=
  match flags with
  | [] => []
  | f :: rest =>
    if flagMatches name environment f then rest
    else f :: removeFlag rest name environment

/-- `crud.update_flag`: absent pair returns `None`; otherwise apply each
supplied field only when it actually changes the stored value, and commit
(refreshing `updated_at` via `onupdate=func.now()`) only when at least
one change was applied, returning the unchanged row and state otherwise. -/
def update_flag (db : DB) (name environment : String) (fd : FeatureFlagUpdate) :
    Option (FeatureFlag × DB) :=
  match get_flag db name environment with
  | none => none
  | some flag =>
    let (flag1, changed1) :=
      match fd.enabled with
      | some b => if b ≠ flag.enabled then ({ flag with enabled := b }, true)
                  else (flag, false)
      | none => (flag, false)
    let (flag2, changed2) :=
      match fd.rollout with
      | some r => if r ≠ flag1.rollout then ({ flag1 with rollout := r }, true)
                  else (flag1, false)
      | none => (flag1, false)
    if changed1 || changed2 then
      let updated := { flag2 with updated_at := db.now }
      some (updated, { db with flags := replaceFlag db.flags name environment updated })
    else
      some (flag, db)

/-- `crud.delete_flag`: absent pair returns false; otherwise delete the
found row and return true. -/
def delete_flag (db : DB) (name environment : String) : Bool × DB :=
  match get_flag db name environment with
  | none => (false, db)
  | some _ => (true, { db with flags := removeFlag db.flags name environment })

/-- The store invariant of `models.FeatureFlag.__table_args__`
(`UniqueConstraint('name', 'environment')`): no two live rows share the
pair. -/
def UniqueDB (db : DB) : Prop :=
  db.flags.Pairwise (fun a b => ¬(a.name = b.name ∧ a.environment = b.environment))

/-- `auth.get_api_keys`: split the configured comma-separated list,
strip and drop empty entries; fall back to the development default when
the configuration string is empty. -/
def get_api_keys (apiKeysStr : String) : List String :=
  if apiKeysStr ≠ "" then
    ((apiKeysStr.splitOn ",").map String.trim).filter (fun k => k ≠ "")
  else ["dev-api-key-12345"]

/-- Authentication outcomes of `auth.verify_api_key`. -/
inductive AuthError where
  | missing
  | invalid
  deriving Repr, DecidableEq

/-- `auth.verify_api_key`: `if not api_key` (header absent or empty)
rejects as missing; a key outside the valid set rejects as invalid. -/
def verify_api_key (validKeys : List String) (apiKey : Option String) :
    Except AuthError String :=
  match apiKey with
  | none => .error .missing
  | some k =>
    if k = "" then .error .missing
    else if !(validKeys.contains k) then .error .invalid
    else .ok k

/-- API-boundary outcomes of `app/main.py` (exception taxonomy of
`app/exceptions.py` plus the two 401 responses of `auth.verify_api_key`). -/
inductive ApiError where
  | unauthMissing
  | unauthInvalid
  | validationFailed (e : ValidationError)
  | notFound (name environment : String)
  | conflict (name environment : String)
  deriving Repr, DecidableEq

/-- `main.create_feature_flag`: auth, body validation, then
`crud.create_flag`, translating `FlagAlreadyExistsError` into the
conflict response. -/
def create_feature_flag (validKeys : List String) (apiKey : Option String)
    (name environment : String) (enabled : Option Bool) (rollout : Option Int)
    (db : DB) : Except ApiError (FeatureFlag × DB) :=
  match verify_api_key validKeys apiKey with
  | .error .missing => .error .unauthMissing
  | .error .invalid => .error .unauthInvalid
  | .ok _ =>
    match mkFeatureFlagCreate name environment enabled rollout with
    | .error e => .error (.validationFailed e)
    | .ok fd =>
      match create_flag db fd with
      | .error (.alreadyExists n e) => .error (.conflict n e)
      | .ok res => .ok res

/-- `main.fetch_feature_flag`: auth, then `crud.get_flag` on the raw
path/query parameters; absence raises `FlagNotFoundError`. -/
def fetch_feature_flag (validKeys : List String) (apiKey : Option String)
    (name environment : String) (db : DB) : Except ApiError FeatureFlag :=
  match verify_api_key validKeys apiKey with
  | .error .missing => .error .unauthMissing
  | .error .invalid => .error .unauthInvalid
  | .ok _ =>
    match get_flag db name environment with
    | none => .error (.notFound name environment)
    | some f => .ok f

/-- `main.list_feature_flags`: auth, query-parameter bounds
(`skip ≥ 0`, `1 ≤ limit ≤ 1000`), then `crud.list_flags` and
`crud.count_flags` returned together. -/
def list_feature_flags (validKeys : List String) (apiKey : Option String)
    (environment : Option String) (skip limit : Nat) (db : DB) :
    Except ApiError (List FeatureFlag × Nat) :=
  match verify_api_key validKeys apiKey with
  | .error .missing => .error .unauthMissing
  | .error .invalid => .error .unauthInvalid
  | .ok _ =>
    if limit < 1 || 1000 < limit then .error (.validationFailed .rolloutRange)
    else .ok (list_flags db environment skip limit, count_flags db environment)

/-- `main.update_feature_flag`: auth, body validation
(`FeatureFlagUpdate`), then `crud.update_flag` on the raw path/query
parameters; absence raises `FlagNotFoundError`. -/
def update_feature_flag (validKeys : List String) (apiKey : Option String)
    (name environment : String) (enabled : Option Bool) (rollout : Option Int)
    (db : DB) : Except ApiError (FeatureFlag × DB) :=
  match verify_api_key validKeys apiKey with
  | .error .missing => .error .unauthMissing
  | .error .invalid => .error .unauthInvalid
  | .ok _ =>
    match mkFeatureFlagUpdate enabled rollout with
    | .error e => .error (.validationFailed e)
    | .ok fd =>
      match update_flag db name environment fd with
      | none => .error (.notFound name environment)
      | some res => .ok res

/-- `main.delete_feature_flag`: auth, then `crud.delete_flag` on the raw
path/query parameters; a false result raises `FlagNotFoundError`. -/
def delete_feature_flag (validKeys : List String) (apiKey : Option String)
    (name environment : String) (db : DB) : Except ApiError DB :=
  match verify_api_key validKeys apiKey with
  | .error .missing => .error .unauthMissing
  | .error .invalid => .error .unauthInvalid
  | .ok _ =>
    match delete_flag db name environment with
    | (false, _) => .error (.notFound name environment)
    | (true, db') => .ok db'

/-- `main.health_check`: no credential dependency; reports healthy and
connected when the trivial round-trip succeeds, degraded and
disconnected when it fails. -/
def health_check (dbConnected : Bool) : String × String :=
  if dbConnected then ("healthy", "connected") else ("degraded", "disconnected")

/-! Helper lemmas about the store operations. -/

theorem flagMatches_iff (n e : String) (f : FeatureFlag) :
    flagMatches n e f = true ↔ f.name = n ∧ f.environment = e := by
  simp [flagMatches]

theorem get_flag_eq_none_iff (db : DB) (n e : String) :
    get_flag db n e = none ↔ ∀ f ∈ db.flags, ¬(f.name = n ∧ f.environment = e) := by
  simp [get_flag, List.head?_eq_none_iff, List.filter_eq_nil_iff, flagMatches]

theorem get_flag_some_spec (db : DB) (n e : String) (f : FeatureFlag)
    (h : get_flag db n e = some f) :
    f ∈ db.flags ∧ f.name = n ∧ f.environment = e := by
  unfold get_flag at h
  cases hl : db.flags.filter (flagMatches n e) with
  | nil => rw [hl] at h; exact absurd h (by simp)
  | cons a t =>
    rw [hl] at h
    simp only [List.head?_cons, Option.some.injEq] at h
    have hmem : f ∈ db.flags.filter (flagMatches n e) := by
      rw [hl, ← h]; exact List.mem_cons_self a t
    have hspec := List.mem_filter.mp hmem
    exact ⟨hspec.1, (flagMatches_iff n e f).mp hspec.2⟩

/-- C1: at most one live flag per pair, and a create on an
already-occupied pair fails with the AlreadyExists outcome, inserting no
row; a successful create only appends the fresh row and preserves the
uniqueness invariant. -/
theorem create_flag_unique_conflict (db : DB) (fd : FeatureFlagCreate)
    (hu : UniqueDB db) :
    ((∃ f ∈ db.flags, f.name = fd.name ∧ f.environment = fd.environment) →
      create_flag db fd = .error (.alreadyExists fd.name fd.environment)) ∧
    (∀ fl db', create_flag db fd = .ok (fl, db') →
      db'.flags = db.flags ++ [fl] ∧ UniqueDB db') := by
  constructor
  · rintro ⟨f, hf, hn, he⟩
    unfold create_flag
    cases hg : get_flag db fd.name fd.environment with
    | none =>
      exact absurd ((get_flag_eq_none_iff db fd.name fd.environment).mp hg f hf)
        (by exact fun h => h ⟨hn, he⟩)
    | some g => rfl
  · intro fl db' h
    unfold create_flag at h
    cases hg : get_flag db fd.name fd.environment with
    | some g => rw [hg] at h; exact absurd h (by simp)
    | none =>
      rw [hg] at h
      simp only [Except.ok.injEq, Prod.mk.injEq] at h
      obtain ⟨hfl, hdb⟩ := h
      have hflags : db'.flags = db.flags ++ [fl] := by
        rw [← hdb, ← hfl]
      refine ⟨hflags, ?_⟩
      have hnone := (get_flag_eq_none_iff db fd.name fd.environment).mp hg
      unfold UniqueDB
      rw [hflags, List.pairwise_append]
      refine ⟨hu, by simp, ?_⟩
      intro a ha b hb
      simp only [List.mem_singleton] at hb
      subst hb
      rw [← hfl]
      simpa using hnone a ha

theorem create_flag_unique_conflict_witness :
    create_flag ⟨[⟨0, "new_ui", "dev", true, 100, 0⟩], 1, 5⟩ ⟨"new_ui", "dev", false, 50⟩
      = .error (.alreadyExists "new_ui" "dev") :=
  (create_flag_unique_conflict ⟨[⟨0, "new_ui", "dev", true, 100, 0⟩], 1, 5⟩
      ⟨"new_ui", "dev", false, 50⟩ (by simp [UniqueDB])).1
    ⟨⟨0, "new_ui", "dev", true, 100, 0⟩, by simp, rfl, rfl⟩

/-- C4: after a successful create, get on the created pair returns the
new record, which agrees with the payload on name, environment, enabled
and rollout and carries the freshly generated id and timestamp. -/
theorem create_get_roundtrip (db : DB) (fd : FeatureFlagCreate)
    (fl : FeatureFlag) (db' : DB) (h : create_flag db fd = .ok (fl, db')) :
    get_flag db' fd.name fd.environment = some fl ∧
    fl.name = fd.name ∧ fl.environment = fd.environment ∧
    fl.enabled = fd.enabled ∧ fl.rollout = fd.rollout ∧
    fl.id = db.nextId ∧ fl.updated_at = db.now := by
  unfold create_flag at h
  cases hg : get_flag db fd.name fd.environment with
  | some g => rw [hg] at h; exact absurd h (by simp)
  | none =>
    rw [hg] at h
    simp only [Except.ok.injEq, Prod.mk.injEq] at h
    obtain ⟨hfl, hdb⟩ := h
    have hfilter : db.flags.filter (flagMatches fd.name fd.environment) = [] := by
      unfold get_flag at hg
      exact List.head?_eq_none_iff.mp hg
    subst hfl
    subst hdb
    refine ⟨?_, rfl, rfl, rfl, rfl, rfl, rfl⟩
    unfold get_flag
    simp [List.filter_append, hfilter, flagMatches]

theorem create_get_roundtrip_witness :
    get_flag ⟨[⟨0, "new_ui", "dev", true, 100, 7⟩], 1, 7⟩ "new_ui" "dev"
        = some ⟨0, "new_ui", "dev", true, 100, 7⟩ ∧
      (⟨0, "new_ui", "dev", true, 100, 7⟩ : FeatureFlag).name = "new_ui" ∧
      (⟨0, "new_ui", "dev", true, 100, 7⟩ : FeatureFlag).environment = "dev" ∧
      (⟨0, "new_ui", "dev", true, 100, 7⟩ : FeatureFlag).enabled = true ∧
      (⟨0, "new_ui", "dev", true, 100, 7⟩ : FeatureFlag).rollout = 100 ∧
      (⟨0, "new_ui", "dev", true, 100, 7⟩ : FeatureFlag).id = 0 ∧
      (⟨0, "new_ui", "dev", true, 100, 7⟩ : FeatureFlag).updated_at = 7 :=
  create_get_roundtrip ⟨[], 0, 7⟩ ⟨"new_ui", "dev", true, 100⟩
    ⟨0, "new_ui", "dev", true, 100, 7⟩ ⟨[⟨0, "new_ui", "dev", true, 100, 7⟩], 1, 7⟩ rfl

theorem removeFlag_no_match (n e : String) :
    ∀ flags : List FeatureFlag,
      flags.Pairwise (fun a b => ¬(a.name = b.name ∧ a.environment = b.environment)) →
      ∀ f ∈ removeFlag flags n e, ¬(f.name = n ∧ f.environment = e) := by
  intro flags
  induction flags with
  | nil => intro _ f hf; simp [removeFlag] at hf
  | cons a rest ih =>
    intro hu
    rw [List.pairwise_cons] at hu
    obtain ⟨ha, hrest⟩ := hu
    unfold removeFlag
    by_cases hm : flagMatches n e a = true
    · rw [if_pos hm]
      intro g hg hcontra
      have hma := (flagMatches_iff n e a).mp hm
      exact ha g hg ⟨hma.1.trans hcontra.1.symm, hma.2.trans hcontra.2.symm⟩
    · rw [if_neg hm]
      intro g hg
      rcases List.mem_cons.mp hg with h1 | h2
      · subst h1; intro hc; exact hm ((flagMatches_iff n e g).mpr hc)
      · exact ih hrest g h2

/-- C5: delete returns true exactly when a matching record existed (and
removes it), false on a miss without error; after a successful delete the
pair is absent and a second delete returns false on the unchanged state. -/
theorem delete_flag_semantics (db : DB) (n e : String) (hu : UniqueDB db) :
    ((delete_flag db n e).1 = true ↔
      ∃ f ∈ db.flags, f.name = n ∧ f.environment = e) ∧
    ((∀ f ∈ db.flags, ¬(f.name = n ∧ f.environment = e)) →
      delete_flag db n e = (false, db)) ∧
    (∀ db', delete_flag db n e = (true, db') →
      get_flag db' n e = none ∧ delete_flag db' n e = (false, db')) := by
  refine ⟨?_, ?_, ?_⟩
  · unfold delete_flag
    cases hg : get_flag db n e with
    | none =>
      simp only [ne_eq, Bool.false_eq_true, false_iff]
      rintro ⟨f, hf, hn, he⟩
      exact (get_flag_eq_none_iff db n e).mp hg f hf ⟨hn, he⟩
    | some f =>
      simp only [true_iff]
      obtain ⟨hf, hn, he⟩ := get_flag_some_spec db n e f hg
      exact ⟨f, hf, hn, he⟩
  · intro hnone
    unfold delete_flag
    rw [(get_flag_eq_none_iff db n e).mpr hnone]
  · intro db' h
    unfold delete_flag at h
    cases hg : get_flag db n e with
    | none => rw [hg] at h; exact absurd h (by simp)
    | some f =>
      rw [hg] at h
      simp only [Prod.mk.injEq, true_and] at h
      have hget : get_flag db' n e = none := by
        rw [get_flag_eq_none_iff, ← h]
        exact removeFlag_no_match n e db.flags hu
      refine ⟨hget, ?_⟩
      unfold delete_flag
      rw [hget]

theorem delete_flag_semantics_witness :
    ((delete_flag ⟨[⟨0, "new_ui", "dev", true, 100, 0⟩], 1, 5⟩ "new_ui" "dev").1 = true ↔
      ∃ f ∈ (⟨[⟨0, "new_ui", "dev", true, 100, 0⟩], 1, 5⟩ : DB).flags,
        f.name = "new_ui" ∧ f.environment = "dev") ∧
    ((∀ f ∈ (⟨[⟨0, "new_ui", "dev", true, 100, 0⟩], 1, 5⟩ : DB).flags,
        ¬(f.name = "new_ui" ∧ f.environment = "dev")) →
      delete_flag ⟨[⟨0, "new_ui", "dev", true, 100, 0⟩], 1, 5⟩ "new_ui" "dev"
        = (false, ⟨[⟨0, "new_ui", "dev", true, 100, 0⟩], 1, 5⟩)) ∧
    (∀ db', delete_flag ⟨[⟨0, "new_ui", "dev", true, 100, 0⟩], 1, 5⟩ "new_ui" "dev"
        = (true, db') →
      get_flag db' "new_ui" "dev" = none ∧
      delete_flag db' "new_ui" "dev" = (false, db')) :=
  delete_flag_semantics ⟨[⟨0, "new_ui", "dev", true, 100, 0⟩], 1, 5⟩ "new_ui" "dev"
    (by simp [UniqueDB])

/-- C3: an update supplying no fields, or only values equal to the
stored ones, returns the current record with every field (including
updated_at) unchanged and leaves the state untouched; an update that
changes enabled or rollout applies exactly the supplied fields and
refreshes updated_at to the current clock. -/
theorem update_flag_noop_and_change (db : DB) (n e : String)
    (fd : FeatureFlagUpdate) (f : FeatureFlag)
    (hget : get_flag db n e = some f) :
    ((fd.enabled = none ∨ fd.enabled = some f.enabled) →
     (fd.rollout = none ∨ fd.rollout = some f.rollout) →
      update_flag db n e fd = some (f, db)) ∧
    (∀ b, fd.enabled = some b → b ≠ f.enabled →
      update_flag db n e fd = some
        ({ f with
           enabled := b,
           rollout := fd.rollout.getD f.rollout,
           updated_at := db.now },
         { db with
           flags := replaceFlag db.flags n e
             { f with
               enabled := b,
               rollout := fd.rollout.getD f.rollout,
               updated_at := db.now } })) ∧
    (∀ r, fd.rollout = some r → r ≠ f.rollout →
      update_flag db n e fd = some
        ({ f with
           enabled := fd.enabled.getD f.enabled,
           rollout := r,
           updated_at := db.now },
         { db with
           flags := replaceFlag db.flags n e
             { f with
               enabled := fd.enabled.getD f.enabled,
               rollout := r,
               updated_at := db.now } })) := by
  obtain ⟨oe, og⟩ := fd
  refine ⟨?_, ?_, ?_⟩
  · rintro (h1 | h1) (h2 | h2) <;>
      · have hoe := h1
        have hog := h2
        simp only at hoe hog
        subst hoe
        subst hog
        simp [update_flag, hget]
  · intro b hb hbne
    have hoe : oe = some b := hb
    subst hoe
    cases og with
    | none => simp [update_flag, hget, hbne]
    | some r =>
      by_cases hr : r = f.rollout
      · subst hr; simp [update_flag, hget, hbne]
      · simp [update_flag, hget, hbne, hr]
  · intro r hr hrne
    have hog : og = some r := hr
    subst hog
    cases oe with
    | none => simp [update_flag, hget, hrne]
    | some b =>
      by_cases hb : b = f.enabled
      · subst hb; simp [update_flag, hget, hrne]
      · simp [update_flag, hget, hrne, hb]

theorem update_flag_noop_and_change_witness :
    update_flag ⟨[⟨0, "new_ui", "dev", true, 100, 0⟩], 1, 9⟩ "new_ui" "dev" ⟨none, none⟩
      = some (⟨0, "new_ui", "dev", true, 100, 0⟩,
              ⟨[⟨0, "new_ui", "dev", true, 100, 0⟩], 1, 9⟩) :=
  (update_flag_noop_and_change ⟨[⟨0, "new_ui", "dev", true, 100, 0⟩], 1, 9⟩
      "new_ui" "dev" ⟨none, none⟩ ⟨0, "new_ui", "dev", true, 100, 0⟩ rfl).1
    (Or.inl rfl) (Or.inl rfl)

/-- C8: an update never changes a flag's id, name, or environment: the
returned record agrees with the previously stored one on these fields. -/
theorem update_flag_preserves_identity (db : DB) (n e : String)
    (fd : FeatureFlagUpdate) (fl' : FeatureFlag) (db' : DB)
    (h : update_flag db n e fd = some (fl', db')) :
    ∃ f, get_flag db n e = some f ∧ fl'.id = f.id ∧ fl'.name = f.name ∧
      fl'.environment = f.environment := by
  unfold update_flag at h
  cases hg : get_flag db n e with
  | none => rw [hg] at h; exact absurd h (by simp)
  | some f =>
    rw [hg] at h
    refine ⟨f, rfl, ?_⟩
    obtain ⟨oe, og⟩ := fd
    cases oe <;> cases og <;> simp only at h <;> repeat' split at h
    all_goals
      simp only [Option.some.injEq, Prod.mk.injEq] at h
    all_goals
      obtain ⟨hfl, hdb⟩ := h
    all_goals
      subst hfl
    all_goals
      exact ⟨rfl, rfl, rfl⟩

theorem update_flag_preserves_identity_witness :
    ∃ f, get_flag ⟨[⟨0, "new_ui", "dev", true, 100, 0⟩], 1, 9⟩ "new_ui" "dev" = some f ∧
      (⟨0, "new_ui", "dev", false, 50, 9⟩ : FeatureFlag).id = f.id ∧
      (⟨0, "new_ui", "dev", false, 50, 9⟩ : FeatureFlag).name = f.name ∧
      (⟨0, "new_ui", "dev", false, 50, 9⟩ : FeatureFlag).environment = f.environment :=
  update_flag_preserves_identity ⟨[⟨0, "new_ui", "dev", true, 100, 0⟩], 1, 9⟩
    "new_ui" "dev" ⟨some false, some 50⟩ ⟨0, "new_ui", "dev", false, 50, 9⟩
    ⟨[⟨0, "new_ui", "dev", false, 50, 9⟩], 1, 9⟩ rfl

theorem flatMap_range_chunks (n : Nat) (_hn : 1 ≤ n) :
    ∀ (K : Nat) (l : List FeatureFlag), l.length ≤ K * n →
      ((List.range K).flatMap fun k => (l.drop (k * n)).take n) = l := by
  intro K
  induction K with
  | zero =>
    intro l hl
    simp only [Nat.zero_mul, Nat.le_zero] at hl
    simp [List.length_eq_zero.mp hl]
  | succ K ih =>
    intro l hl
    rw [Nat.succ_mul] at hl
    have hdl : (l.drop n).length ≤ K * n := by
      rw [List.length_drop]; omega
    simp only [List.range_succ_eq_map, List.flatMap_cons, List.flatMap_map]
    have hfun : (fun a => (l.drop (Nat.succ a * n)).take n)
        = fun a => ((l.drop n).drop (a * n)).take n := by
      funext a
      rw [List.drop_drop, Nat.succ_mul, Nat.add_comm]
    rw [hfun, ih (l.drop n) hdl, Nat.zero_mul, List.drop_zero, List.take_append_drop]

/-- C6: for any fixed limit ≥ 1, exhaustively paging list over the same
filter (enough pages to cover the count) returns exactly count-many
records; count takes no offset or limit, so it is independent of them. -/
theorem count_flags_pagination (db : DB) (env : Option String) (limit K : Nat)
    (h1 : 1 ≤ limit) (hK : count_flags db env ≤ K * limit) :
    ((List.range K).flatMap fun k => list_flags db env (k * limit) limit).length
      = count_flags db env := by
  unfold count_flags at hK ⊢
  unfold list_flags
  rw [flatMap_range_chunks limit h1 K (filteredFlags db env) hK]

theorem count_flags_pagination_witness :
    ((List.range 1).flatMap fun k =>
        list_flags ⟨[⟨0, "new_ui", "dev", true, 100, 0⟩], 1, 5⟩ none (k * 1) 1).length
      = count_flags ⟨[⟨0, "new_ui", "dev", true, 100, 0⟩], 1, 5⟩ none :=
  count_flags_pagination ⟨[⟨0, "new_ui", "dev", true, 100, 0⟩], 1, 5⟩ none 1 1
    (by decide) (by decide)

/-- C7: rollout values outside [0, 100] (such as -1 and 101) fail
validation on create and on update, 0 and 100 succeed on both, and an
omitted enabled defaults to false while an omitted rollout defaults to
100 on create. -/
theorem validation_boundaries (r : Int) (hr : r < 0 ∨ 100 < r) :
    mkFeatureFlagCreate "new_ui" "dev" none (some r) = .error .rolloutRange ∧
    mkFeatureFlagUpdate none (some r) = .error .rolloutRange ∧
    mkFeatureFlagCreate "new_ui" "dev" none (some 0) = .ok ⟨"new_ui", "dev", false, 0⟩ ∧
    mkFeatureFlagCreate "new_ui" "dev" none (some 100) = .ok ⟨"new_ui", "dev", false, 100⟩ ∧
    mkFeatureFlagUpdate none (some 0) = .ok ⟨none, some 0⟩ ∧
    mkFeatureFlagUpdate none (some 100) = .ok ⟨none, some 100⟩ ∧
    mkFeatureFlagCreate "new_ui" "dev" none none = .ok ⟨"new_ui", "dev", false, 100⟩ := by
  have h2 : (decide (r < 0) || decide (100 < r)) = true := by
    rcases hr with h | h <;> simp [h]
  refine ⟨?_, ?_, rfl, rfl, rfl, rfl, rfl⟩
  · unfold mkFeatureFlagCreate
    rw [if_neg (by decide), if_neg (by decide), if_neg (by decide)]
    simp only [Option.getD_some]
    rw [if_pos h2]
  · simp [mkFeatureFlagUpdate, h2]

theorem validation_boundaries_witness :
    ((-1 : Int) < 0 ∨ (100 : Int) < -1) ∧
    (mkFeatureFlagCreate "new_ui" "dev" none (some (-1)) = .error .rolloutRange ∧
     mkFeatureFlagUpdate none (some (-1)) = .error .rolloutRange ∧
     mkFeatureFlagCreate "new_ui" "dev" none (some 0) = .ok ⟨"new_ui", "dev", false, 0⟩ ∧
     mkFeatureFlagCreate "new_ui" "dev" none (some 100) = .ok ⟨"new_ui", "dev", false, 100⟩ ∧
     mkFeatureFlagUpdate none (some 0) = .ok ⟨none, some 0⟩ ∧
     mkFeatureFlagUpdate none (some 100) = .ok ⟨none, some 100⟩ ∧
     mkFeatureFlagCreate "new_ui" "dev" none none = .ok ⟨"new_ui", "dev", false, 100⟩) :=
  ⟨Or.inl (by decide), validation_boundaries (-1) (Or.inl (by decide))⟩

/-- C9: every endpoint except the health probe rejects an absent
credential as Unauthenticated-missing and a credential outside the valid
set as Unauthenticated-invalid, returning before any store operation (the
endpoints are auth-first by construction); the health probe takes no
credential and answers from connectivity alone. -/
theorem auth_gating (validKeys : List String) (k nm env : String)
    (en : Option Bool) (ro : Option Int) (envF : Option String)
    (skip limit : Nat) (db : DB)
    (hk : k ≠ "") (hinv : validKeys.contains k = false) :
    create_feature_flag validKeys none nm env en ro db = .error .unauthMissing ∧
    create_feature_flag validKeys (some k) nm env en ro db = .error .unauthInvalid ∧
    fetch_feature_flag validKeys none nm env db = .error .unauthMissing ∧
    fetch_feature_flag validKeys (some k) nm env db = .error .unauthInvalid ∧
    list_feature_flags validKeys none envF skip limit db = .error .unauthMissing ∧
    list_feature_flags validKeys (some k) envF skip limit db = .error .unauthInvalid ∧
    update_feature_flag validKeys none nm env en ro db = .error .unauthMissing ∧
    update_feature_flag validKeys (some k) nm env en ro db = .error .unauthInvalid ∧
    delete_feature_flag validKeys none nm env db = .error .unauthMissing ∧
    delete_feature_flag validKeys (some k) nm env db = .error .unauthInvalid ∧
    health_check true = ("healthy", "connected") ∧
    health_check false = ("degraded", "disconnected") := by
  have hnm : k ∉ validKeys := by simpa using hinv
  have hv : verify_api_key validKeys (some k) = .error .invalid := by
    simp [verify_api_key, hk, hnm]
  refine ⟨rfl, ?_, rfl, ?_, rfl, ?_, rfl, ?_, rfl, ?_, rfl, rfl⟩ <;>
    simp [create_feature_flag, fetch_feature_flag, list_feature_flags,
      update_feature_flag, delete_feature_flag, hv]

theorem auth_gating_witness :
    ("bad-key" ≠ "" ∧ (["dev-api-key-12345"].contains "bad-key") = false) ∧
    (create_feature_flag ["dev-api-key-12345"] none "new_ui" "dev" none none ⟨[], 0, 0⟩
        = .error .unauthMissing ∧
     create_feature_flag ["dev-api-key-12345"] (some "bad-key") "new_ui" "dev" none none
        ⟨[], 0, 0⟩ = .error .unauthInvalid ∧
     fetch_feature_flag ["dev-api-key-12345"] none "new_ui" "dev" ⟨[], 0, 0⟩
        = .error .unauthMissing ∧
     fetch_feature_flag ["dev-api-key-12345"] (some "bad-key") "new_ui" "dev" ⟨[], 0, 0⟩
        = .error .unauthInvalid ∧
     list_feature_flags ["dev-api-key-12345"] none none 0 100 ⟨[], 0, 0⟩
        = .error .unauthMissing ∧
     list_feature_flags ["dev-api-key-12345"] (some "bad-key") none 0 100 ⟨[], 0, 0⟩
        = .error .unauthInvalid ∧
     update_feature_flag ["dev-api-key-12345"] none "new_ui" "dev" none none ⟨[], 0, 0⟩
        = .error .unauthMissing ∧
     update_feature_flag ["dev-api-key-12345"] (some "bad-key") "new_ui" "dev" none none
        ⟨[], 0, 0⟩ = .error .unauthInvalid ∧
     delete_feature_flag ["dev-api-key-12345"] none "new_ui" "dev" ⟨[], 0, 0⟩
        = .error .unauthMissing ∧
     delete_feature_flag ["dev-api-key-12345"] (some "bad-key") "new_ui" "dev" ⟨[], 0, 0⟩
        = .error .unauthInvalid ∧
     health_check true = ("healthy", "connected") ∧
     health_check false = ("degraded", "disconnected")) :=
  ⟨⟨by decide, by decide⟩,
   auth_gating ["dev-api-key-12345"] "bad-key" "new_ui" "dev" none none none 0 100
     ⟨[], 0, 0⟩ (by decide) (by decide)⟩

/-- C10: an empty-string environment filter is falsy in the query
builder, so list and count treat it exactly like an omitted filter,
returning records and cardinality across all environments. -/
theorem list_count_empty_env_filter (db : DB) (skip limit : Nat) :
    list_flags db (some "") skip limit = list_flags db none skip limit ∧
    count_flags db (some "") = count_flags db none := by
  unfold list_flags count_flags filteredFlags
  simp

/-- C2 as stated is false: the fetch endpoint performs no environment
validation, so the non-allowed environment "qa" with a valid credential
produces the not-found outcome, not a validation failure. -/
theorem fetch_env_not_validated :
    fetch_feature_flag ["dev-api-key-12345"] (some "dev-api-key-12345") "new_ui" "qa"
      ⟨[], 0, 0⟩ = .error (.notFound "new_ui" "qa") := rfl

/-- C2 (amended): the create payload schema validates the environment
case-insensitively against the allowed set and normalizes it to
lowercase before it reaches the store; fetch-one, update and delete pass
the raw path/query environment straight to the store, so an environment
that matches no stored record (such as a non-allowed or differently
cased value) yields the not-found outcome rather than a validation
failure. -/
theorem environment_validation_create_only (validKeys : List String)
    (key nm env : String) (en : Option Bool) (ro : Option Int) (db : DB)
    (hkey : validKeys.contains key = true) (hk : key ≠ "") :
    (1 ≤ nm.length → nm.length ≤ 100 → 1 ≤ env.length → env.length ≤ 50 →
      allowedEnvironments.contains (strLower env) = false →
      create_feature_flag validKeys (some key) nm env en ro db
        = .error (.validationFailed .environmentNotAllowed)) ∧
    (∀ fd, mkFeatureFlagCreate nm env en ro = .ok fd →
      fd.environment = strLower env) ∧
    (get_flag db nm env = none →
      fetch_feature_flag validKeys (some key) nm env db
        = .error (.notFound nm env) ∧
      update_feature_flag validKeys (some key) nm env none none db
        = .error (.notFound nm env) ∧
      delete_feature_flag validKeys (some key) nm env db
        = .error (.notFound nm env)) := by
  have hmem : key ∈ validKeys := by simpa using hkey
  have hok : verify_api_key validKeys (some key) = .ok key := by
    simp [verify_api_key, hk, hmem]
  refine ⟨?_, ?_, ?_⟩
  · intro hn1 hn2 he1 he2 hnot
    have hmk : mkFeatureFlagCreate nm env en ro = .error .environmentNotAllowed := by
      unfold mkFeatureFlagCreate
      rw [if_neg (by simp only [Bool.or_eq_true, decide_eq_true_eq]; omega),
          if_neg (by simp only [Bool.or_eq_true, decide_eq_true_eq]; omega),
          if_pos (by rw [hnot]; rfl)]
    simp [create_feature_flag, hok, hmk]
  · intro fd hfd
    unfold mkFeatureFlagCreate at hfd
    dsimp only at hfd
    repeat' split at hfd
    all_goals
      first
      | (simp only [Except.ok.injEq] at hfd
         subst hfd
         rfl)
      | simp at hfd
  · intro hmiss
    refine ⟨?_, ?_, ?_⟩
    · simp [fetch_feature_flag, hok, hmiss]
    · simp [update_feature_flag, mkFeatureFlagUpdate, update_flag, hok, hmiss]
    · simp [delete_feature_flag, delete_flag, hok, hmiss]

theorem environment_validation_create_only_witness :
    ((["dev-api-key-12345"].contains "dev-api-key-12345") = true ∧
      "dev-api-key-12345" ≠ "") ∧
    ((1 ≤ "new_ui".length → "new_ui".length ≤ 100 → 1 ≤ "qa".length →
      "qa".length ≤ 50 → allowedEnvironments.contains (strLower "qa") = false →
      create_feature_flag ["dev-api-key-12345"] (some "dev-api-key-12345")
          "new_ui" "qa" none none ⟨[], 0, 0⟩
        = .error (.validationFailed .environmentNotAllowed)) ∧
     (∀ fd, mkFeatureFlagCreate "new_ui" "qa" none none = .ok fd →
       fd.environment = strLower "qa") ∧
     (get_flag ⟨[], 0, 0⟩ "new_ui" "qa" = none →
       fetch_feature_flag ["dev-api-key-12345"] (some "dev-api-key-12345")
           "new_ui" "qa" ⟨[], 0, 0⟩ = .error (.notFound "new_ui" "qa") ∧
       update_feature_flag ["dev-api-key-12345"] (some "dev-api-key-12345")
           "new_ui" "qa" none none ⟨[], 0, 0⟩ = .error (.notFound "new_ui" "qa") ∧
       delete_feature_flag ["dev-api-key-12345"] (some "dev-api-key-12345")
           "new_ui" "qa" ⟨[], 0, 0⟩ = .error (.notFound "new_ui" "qa"))) :=
  ⟨⟨by decide, by decide⟩,
   environment_validation_create_only ["dev-api-key-12345"] "dev-api-key-12345"
     "new_ui" "qa" none none ⟨[], 0, 0⟩ (by decide) (by decide)⟩

end FlagShip
